import Mathlib

/-!
Verification of the camera/recording pipeline of `react-use-camera`
(`src/lib/useCamera.ts`, `src/lib/Camera.tsx`).

The hook keeps module-level mutable state (`stream`, `recorder`,
`recordedData`, `recordingRequestId`, `recordingVideoElement`,
`recordingCanvasElement`).  We embed that state as `ModuleState` and each
exported operation as a state transition.  Browser behaviour that the code
relies on is modelled explicitly:

* `MediaRecorder.stop()` queues a task that fires `dataavailable` with all
  data gathered since the last emission and then fires `stop`; those queued
  tasks run only after the current synchronous run completes.  The queue is
  the `tasks` field, drained by `runTask`.
* `MediaStream` handles and DOM elements are identified by numeric ids.
* Blobs are byte lists; `new Blob(recordedData)` concatenates its parts.
-/

namespace ReactUseCamera

/-- A DOM video element: either supplied by the caller through
`settings.videoRef`, or created by the library itself. -/
inductive Elem where
  | caller (id : Nat)
  | internal (id : Nat)
deriving DecidableEq

/-- Whether an element is a caller-supplied one. -/
def Elem.isCaller : Elem → Bool
  | .caller _ => true
  | .internal _ => false

/-- A `MediaRecorder` instance: `collected` is the data it has gathered and
not yet emitted, `inactive` its `state === "inactive"` flag, `hasOnStop`
whether `stopRecording` assigned its `onstop` handler. -/
structure Recorder where
  id : Nat
  collected : List Nat
  inactive : Bool
  hasOnStop : Bool
deriving DecidableEq

/-- A task queued on the event loop by `MediaRecorder.stop()`:
the final `dataavailable` (carrying the unflushed data) followed by the
`stop` event (`hasHandler` records whether `onstop` was assigned on the
recorder when `stop()` was called). -/
inductive PTask where
  | flush (data : List Nat)
  | stopEvt (hasHandler : Bool)
deriving DecidableEq

/-- The module-level state of `useCamera.ts` (lines 4-13), together with the
bookkeeping needed to observe the code's effects: the queued platform tasks,
the list of DOM elements removed so far, the value the last resolved
`stopRecording()` promise delivered (its blob's bytes), and counters for
fresh ids and for `getUserMedia` calls. -/
structure ModuleState where
  stream : Option Nat
  recorder : Option Recorder
  recordedData : Option (List (List Nat))
  recordingRequestId : Option Nat
  recordingVideoElement : Option Elem
  recordingCanvasElement : Option Nat
  tasks : List PTask
  removed : List Elem
  lastStopResult : Option (List Nat)
  nextId : Nat
  acquisitions : Nat
deriving DecidableEq

/-- The state when the module is first loaded: every global is `undefined`. -/
def initState : ModuleState :=
  { stream := none, recorder := none, recordedData := none,
    recordingRequestId := none, recordingVideoElement := none,
    recordingCanvasElement := none, tasks := [], removed := [],
    lastStopResult := none, nextId := 0, acquisitions := 0 }

/-- `getRecordedDataAsVideo` (lines 15-24): rejects with "No data recorded"
when `recordedData` is not an array, otherwise resolves with the blob built
from the accumulated chunks (their concatenation). -/
def getRecordedDataAsVideo (st : ModuleState) : Except String (List Nat) :=
  match st.recordedData with
  | none => Except.error "No data recorded"
  | some chunks => Except.ok chunks.flatten

/-- `stopExistingCameraStreams` (lines 28-31): stops every track and clears
the stream handle. -/
def stopExistingCameraStreams (st : ModuleState) : ModuleState :=
  { st with stream := none }

/-- `stopExistingRecordings` (lines 33-50): cancels the animation frame,
removes the internally created canvas and video elements, calls
`recorder.stop()` when the recorder is not inactive (which queues its final
`dataavailable` and `stop` events), and clears `recorder` and
`recordedData`. -/
def stopExistingRecordings (st : ModuleState) : ModuleState :=
  let stopTasks : List PTask :=
    match st.recorder with
    | some r => if r.inactive = false then [PTask.flush r.collected, PTask.stopEvt r.hasOnStop] else []
    | none => []
  { st with
    recordingRequestId := none,
    recordingCanvasElement := none,
    recordingVideoElement := none,
    recorder := none,
    recordedData := none,
    tasks := st.tasks ++ stopTasks,
    removed := st.removed ++ (st.recordingCanvasElement.map Elem.internal).toList
                ++ st.recordingVideoElement.toList }

/-- `stopExistingRecordingsAndCameraStreams` (lines 52-55). -/
def stopExistingRecordingsAndCameraStreams (st : ModuleState) : ModuleState :=
  stopExistingCameraStreams (stopExistingRecordings st)

/-- The successful `getUserMedia` step of `startCamera` (lines 69-72): a
fresh stream handle is acquired and stored.  The constraints are passed to
the platform and do not influence the module state. -/
def acquireStream (st : ModuleState) : ModuleState :=
  { st with stream := some st.nextId, nextId := st.nextId + 1,
            acquisitions := st.acquisitions + 1 }

/-- `startCamera` (lines 60-73): fails fast when the MediaDevices API is
missing, otherwise unconditionally tears down any recording and stream and
acquires a fresh stream.  The code never compares the new constraints with
previously applied ones. -/
def startCameraModel (supported : Bool) (constraints : String) (st : ModuleState) :
    Except String ModuleState :=
  if supported = false then Except.error "Camera not supported"
  else Except.ok (acquireStream (stopExistingRecordingsAndCameraStreams st))

/-- The shared `ondataavailable` handler (lines 239-243): every recorder
created by `startRecording` gets this same closure over the module-level
`recordedData`, so whichever recorder fires, the chunk is appended to the
current accumulated sequence (created on demand). -/
def handleData (data : List Nat) (st : ModuleState) : ModuleState :=
  { st with recordedData := some (st.recordedData.getD [] ++ [data]) }

/-- The platform gathering encoded bytes into the active recorder (data the
recorder will emit with its next `dataavailable`). -/
def collectData (bytes : List Nat) (st : ModuleState) : ModuleState :=
  match st.recorder with
  | some r => if r.inactive = false
              then { st with recorder := some { r with collected := r.collected ++ bytes } }
              else st
  | none => st

/-- `startRecording` (lines 169-246): fails when neither a stream nor a
caller-supplied video element exists; otherwise stops any existing
recording, creates a hidden video element when the caller supplied none
(storing it in `recordingVideoElement`), creates the canvas, starts the
render loop, and creates and starts a fresh recorder.  `callerEl` is the id
of `videoRef.current` when the caller passed a usable ref. -/
def startRecordingModel (callerEl : Option Nat) (st : ModuleState) :
    Except String ModuleState :=
  if st.stream = none ∧ callerEl = none then
    Except.error "No source provided for recording"
  else
    Except.ok (
      let st1 := stopExistingRecordings st
      match callerEl with
      | some _ =>
        { st1 with recordingCanvasElement := some st1.nextId,
                   recordingRequestId := some (st1.nextId + 1),
                   recorder := some ⟨st1.nextId + 2, [], false, false⟩,
                   nextId := st1.nextId + 3 }
      | none =>
        { st1 with recordingVideoElement := some (Elem.internal st1.nextId),
                   recordingCanvasElement := some (st1.nextId + 1),
                   recordingRequestId := some (st1.nextId + 2),
                   recorder := some ⟨st1.nextId + 3, [], false, false⟩,
                   nextId := st1.nextId + 4 })

/-- `stopRecording` (lines 250-262): rejects with "Recording not started"
when no recorder exists; otherwise assigns `onstop` and calls
`recorder.stop()`, which queues the final `dataavailable` and the `stop`
event.  The promise resolves later, when the `stop` event runs. -/
def stopRecording (st : ModuleState) : Except String ModuleState :=
  match st.recorder with
  | none => Except.error "Recording not started"
  | some r =>
    if r.inactive = false then
      Except.ok { st with recorder := some { r with inactive := true, hasOnStop := true },
                          tasks := st.tasks ++ [PTask.flush r.collected, PTask.stopEvt true] }
    else
      Except.ok { st with recorder := some { r with hasOnStop := true } }

/-- Run the oldest queued platform task.  A `flush` fires the shared
`ondataavailable` handler.  A `stopEvt` with a handler runs the `onstop`
body of `stopRecording` (lines 253-257): read the clip with
`getRecordedDataAsVideo`, resolve the promise with it, then clean up with
`stopExistingRecordings`.  Were the read to reject, the promise would never
settle and the cleanup would not run. -/
def runTask (st : ModuleState) : ModuleState :=
  match st.tasks with
  | [] => st
  | t :: rest =>
    let st1 := { st with tasks := rest }
    match t with
    | PTask.flush d => handleData d st1
    | PTask.stopEvt hasHandler =>
      if hasHandler then
        match getRecordedDataAsVideo st1 with
        | Except.ok clip => stopExistingRecordings { st1 with lastStopResult := some clip }
        | Except.error _ => st1
      else st1

/-- The operations a client or the platform can perform on the module. -/
inductive Op where
  | startCam (constraints : String)
  | stopCam
  | startRec (callerEl : Option Nat)
  | stopRec
  | collect (bytes : List Nat)
  | task
deriving DecidableEq

/-- Apply one operation; an operation that rejects leaves the module state
unchanged. -/
def applyOp : Op → ModuleState → ModuleState
  | Op.startCam c, st =>
    match startCameraModel true c st with
    | Except.ok s => s
    | Except.error _ => st
  | Op.stopCam, st => stopExistingRecordingsAndCameraStreams st
  | Op.startRec r, st =>
    match startRecordingModel r st with
    | Except.ok s => s
    | Except.error _ => st
  | Op.stopRec, st =>
    match stopRecording st with
    | Except.ok s => s
    | Except.error _ => st
  | Op.collect bs, st => collectData bs st
  | Op.task, st => runTask st

/-! ### Still capture (`capture`, lines 86-165)

`capture` runs inside a `new Promise` executor.  Its guard (line 89) calls
`reject` WITHOUT returning, so execution continues past it; a promise keeps
the first settlement, later `resolve`/`reject` calls are ignored, and an
exception thrown by the executor after it has settled is swallowed.
Line 92 reads `videoRef!.current`, which throws a `TypeError` when
`settings.videoRef` is `undefined` (the TypeScript `!` assertion is erased
at runtime), aborting the executor. -/

/-- How the caller passed `settings.videoRef` to `capture`:
not at all, a ref whose `current` is `null`, or a ref holding an element. -/
inductive RefArg where
  | noRef
  | refNull
  | refEl
deriving DecidableEq

/-- The observable outcome of one `capture` call: how its promise settles
(`none` = it never settles), and which DOM resources the call created,
removed, or left behind. -/
structure CaptureOutcome where
  result : Option (Except String Unit)
  virtualSinkCreated : Bool
  virtualSinkRemoved : Bool
  canvasCreated : Bool
  canvasRemoved : Bool
  callerSinkRemoved : Bool

/-- `capture` (lines 86-165) as a function of whether the module has an
active stream and how `videoRef` was passed.  A virtual (internally
created) sink only ever fires `playing` when a stream feeds it; a
caller-supplied element is assumed to reach the playing state, at which
point `addToCanvasAndCapture` (lines 106-155) runs: it creates the canvas,
draws, resolves, removes the canvas, and removes the video element only
when `isVirtualVideoTag` is set (lines 150-154). -/
def captureModel (hasStream : Bool) (ref : RefArg) : CaptureOutcome :=
  -- line 89: `if (!stream && !videoRef?.current) reject(...)` -- no return
  let rejected : Option String :=
    if hasStream = false ∧ ref ≠ RefArg.refEl then some "No source provided for capture"
    else none
  -- line 92: `videoRef!.current` throws when no ref object was passed
  if ref = RefArg.noRef then
    { result := some (Except.error (rejected.getD "TypeError")),
      virtualSinkCreated := false, virtualSinkRemoved := false,
      canvasCreated := false, canvasRemoved := false, callerSinkRemoved := false }
  else
    -- lines 94-103: create, attach and append a hidden video element when
    -- `videoRef.current` is null
    let isVirtual := ref = RefArg.refNull
    let frameArrives := if isVirtual then hasStream else true
    if frameArrives then
      { result := some ((rejected.map Except.error).getD (Except.ok ())),
        virtualSinkCreated := isVirtual, virtualSinkRemoved := isVirtual,
        canvasCreated := true, canvasRemoved := true, callerSinkRemoved := false }
    else
      { result := rejected.map Except.error,
        virtualSinkCreated := isVirtual, virtualSinkRemoved := false,
        canvasCreated := false, canvasRemoved := false, callerSinkRemoved := false }

/-! ### Canvas size resolution

Both `capture` (lines 106-127) and `startRecording` (lines 196-216) size
their canvas from the optional requested `width`/`height` and the video's
native `videoWidth`/`videoHeight`.  Dimensions are modelled as rationals
(the claim speaks up to floating-point tolerance). -/

/-- The canvas sizing of `capture` (lines 108-127). -/
def captureCanvasSize (videoWidth videoHeight : ℚ) :
    Option ℚ → Option ℚ → ℚ × ℚ
  | some w, some h => (w, h)
  | some w, none => (w, videoHeight * (w / videoWidth))
  | none, some h => (videoWidth * (h / videoHeight), h)
  | none, none => (videoWidth, videoHeight)

/-- The canvas sizing of `startRecording` (lines 197-216). -/
def recordingCanvasSize (videoWidth videoHeight : ℚ) :
    Option ℚ → Option ℚ → ℚ × ℚ
  | some w, some h => (w, h)
  | some w, none => (w, videoHeight * (w / videoWidth))
  | none, some h => (videoWidth * (h / videoHeight), h)
  | none, none => (videoWidth, videoHeight)

/-! ### Pixel-level drawing

One canvas row is a byte list; column `x` of a canvas of width `W` covers
device x-interval `[x, x+1)`.  The code only ever uses the transform
`context.scale(-1, 1)`, so the current transformation matrix is a
horizontal factor `m ∈ {1, -1}`.  `drawImage(video, dx, 0, dw, h)` paints
the source row over the destination rectangle spanning user x-interval
`[min dx (dx+dw), max dx (dx+dw)]`; per the drawing-images algorithm of the
HTML standard, the image data is processed in its original direction even
when `dw` is negative, so source column `sx` occupies the user cell
starting at `min dx (dx+dw) + sx` (we model the 1:1 case, `|dw|` = source
width = canvas width).  The transform then maps that cell to a device
column; pixels landing outside `[0, W)` are clipped. -/

/-- Device column that source column `sx` is painted to, under horizontal
scale `m` (with `m = 1` or `m = -1`) and destination rectangle `[dx, dx+dw]`. -/
def paintedCol (m dx dw : Int) (sx : Nat) : Int :=
  let lo := min dx (dx + dw)
  if m = 1 then lo + sx else -(lo + sx) - 1

/-- Draw source row `src` onto `canvas` with transform `m` and destination
rectangle `[dx, dx+dw]`: each canvas column keeps its pixel unless some
source column is painted onto it. -/
def drawRow (m dx dw : Int) (src canvas : List Nat) : List Nat :=
  (List.range canvas.length).map fun (x : Nat) =>
    match (List.range src.length).find? (fun sx => paintedCol m dx dw sx = Int.ofNat x) with
    | some sx => src.getD sx 0
    | none => canvas.getD x 0

/-- `context.scale(-1, 1)` composes the horizontal factor with `-1`. -/
def applyScaleNeg (m : Int) : Int := m * (-1)

/-- The single draw of `capture` (lines 132-139) on a fresh canvas and
context: the mirror branch runs `scale(-1, 1)` and then
`drawImage(video, 0, 0, -canvas.width, canvas.height)`; the other branch
draws with positive width.  Canvas width equals the source width here
(the no-resize case). -/
def captureDraw (mirror : Bool) (src : List Nat) : List Nat :=
  let blank := List.replicate src.length 0
  if mirror then
    drawRow (applyScaleNeg 1) 0 (-(src.length : Int)) src blank
  else
    drawRow 1 0 (src.length : Int) src blank

/-- One iteration of `renderVideoOnCanvas` (lines 224-233) on the recording
session's persistent context: the state is the context's current horizontal
factor and the canvas contents.  The mirror branch applies `scale(-1, 1)`
to the SAME context on every call before drawing with negative width. -/
def renderLoopStep (mirror : Bool) (ctx : Int × List Nat) (src : List Nat) :
    Int × List Nat :=
  if mirror then
    let m := applyScaleNeg ctx.1
    (m, drawRow m 0 (-(ctx.2.length : Int)) src ctx.2)
  else
    (ctx.1, drawRow ctx.1 0 (ctx.2.length : Int) src ctx.2)

/-- The true horizontal flip: output pixel `x` is source pixel
`width - 1 - x`. -/
def trueHorizontalFlip (src : List Nat) : List Nat := src.reverse

/-! ### The `Camera` component's constraints effect (`Camera.tsx`, 77-103)

The component, not the hook, is what avoids redundant restarts: its effect
compares `JSON.stringify(cameraConstraints)` with the serialization it last
applied and returns immediately when they are equal; otherwise it stops any
running camera and calls `startCamera`.  Constraints are modelled by their
serialization. -/

/-- The component's state around the effect: the hook's module state, the
`stream` React state, and `appliedConstraintsJson`. -/
structure CamCompState where
  cam : ModuleState
  compStream : Option Nat
  appliedJson : Option String
deriving DecidableEq

/-- The body of `startCamera` on the supported platform (the `Except.ok`
payload of `startCameraModel`). -/
def startCameraOk (st : ModuleState) : ModuleState :=
  acquireStream (stopExistingRecordingsAndCameraStreams st)

/-- The constraints effect (lines 77-103 of `Camera.tsx`): a no-op when the
serialized constraints equal the applied ones; otherwise stop the running
camera (if any), start it with the new constraints and record their
serialization. -/
def constraintsEffect (json : String) (cs : CamCompState) : CamCompState :=
  if cs.appliedJson = some json then cs
  else
    let cam1 := if cs.compStream.isSome then stopExistingRecordingsAndCameraStreams cs.cam
                else cs.cam
    let cam2 := startCameraOk cam1
    { cam := cam2, compStream := cam2.stream, appliedJson := some json }

/-! ### Caller-supplied elements are never removed -/

/-- No caller-supplied element has been removed from the document, and the
module's `recordingVideoElement` slot (the only video element
`stopExistingRecordings` removes) holds no caller-supplied element. -/
def callerUntouched (st : ModuleState) : Bool :=
  st.removed.all (fun e => !e.isCaller) &&
    (match st.recordingVideoElement with
     | some e => !e.isCaller
     | none => true)

/-- Run a list of operations from a starting state. -/
def runOps (ops : List Op) (st : ModuleState) : ModuleState :=
  ops.foldl (fun s o => applyOp o s) st

/-- The state right after `startCamera` followed by a plain
`startRecording()` from the freshly loaded module. -/
def freshSession : ModuleState :=
  runOps [Op.startCam "c", Op.startRec none] initState

/-! ### Helper lemmas -/

/-- Folding chunk arrivals over a state whose accumulated sequence is
`acc` appends them in arrival order. -/
theorem foldl_handleData_eq (cs : List (List Nat)) :
    ∀ (s : ModuleState) (acc : List (List Nat)), s.recordedData = some acc →
      cs.foldl (fun t c => handleData c t) s
        = { s with recordedData := some (acc ++ cs) } := by
  induction cs with
  | nil =>
    intro s acc h
    cases s
    simp_all
  | cons d rest ih =>
    intro s acc h
    have h1 : handleData d s = { s with recordedData := some (acc ++ [d]) } := by
      simp [handleData, h]
    calc (d :: rest).foldl (fun t c => handleData c t) s
        = rest.foldl (fun t c => handleData c t) (handleData d s) := rfl
      _ = { handleData d s with recordedData := some ((acc ++ [d]) ++ rest) } :=
          ih _ _ (by rw [h1])
      _ = { s with recordedData := some (acc ++ d :: rest) } := by
          rw [h1]; simp

/-- Stopping a recording session started from `freshSession` with
accumulated chunks `l`: the `dataavailable` flush (empty, nothing was
gathered outside the emitted chunks) and the `stop` event run, and the
resolved clip is the concatenation of the accumulated chunks. -/
theorem stop_after_chunks (l : List (List Nat)) :
    (runTask (runTask (applyOp Op.stopRec
        { freshSession with recordedData := some l }))).lastStopResult
      = some ((l ++ [[]]).flatten) := rfl

/-- `callerUntouched` only reads the `removed` list and the
`recordingVideoElement` slot. -/
theorem callerUntouched_congr (s s' : ModuleState) (h1 : s'.removed = s.removed)
    (h2 : s'.recordingVideoElement = s.recordingVideoElement) :
    callerUntouched s' = callerUntouched s := by
  unfold callerUntouched
  rw [h1, h2]

/-- `stopExistingRecordings` removes only elements held in the module's
internal slots, so it preserves `callerUntouched`. -/
theorem callerUntouched_stopExistingRecordings (st : ModuleState)
    (h : callerUntouched st = true) :
    callerUntouched (stopExistingRecordings st) = true := by
  unfold callerUntouched at h ⊢
  unfold stopExistingRecordings
  cases hv : st.recordingVideoElement <;> cases hc : st.recordingCanvasElement <;>
    simp_all [Elem.isCaller]

/-! ### Claim theorems -/

/-- C1 (counterexample): after a full run — `startCamera`, `startRecording`,
the recorder gathers bytes `[1,2,3]`, `stopRecording`, and the two queued
platform events — the stop promise resolved with clip `[1,2,3]`, yet a
subsequent `getRecordedVideo()` rejects with "No data recorded" instead of
returning the same clip: the `onstop` cleanup discarded `recordedData`. -/
theorem stop_then_reread_cex :
    (runOps [Op.startCam "c", Op.startRec none, Op.collect [1, 2, 3],
        Op.stopRec, Op.task, Op.task] initState).lastStopResult = some [1, 2, 3] ∧
    getRecordedDataAsVideo (runOps [Op.startCam "c", Op.startRec none,
        Op.collect [1, 2, 3], Op.stopRec, Op.task, Op.task] initState)
      = Except.error "No data recorded" ∧
    (Except.error "No data recorded" : Except String (List Nat)) ≠ Except.ok [1, 2, 3] := by
  refine ⟨rfl, rfl, fun h => Except.noConfusion h⟩

/-- C1 (amended): after `stopRecording`'s promise resolves, its `onstop`
handler has run `stopExistingRecordings`, which sets `recordedData` to
`undefined`; therefore any subsequent `getRecordedVideo()` rejects with
"No data recorded".  The clip is only available from `stopRecording`'s own
result (here `[1,2,3]`), not from a later re-read. -/
theorem getRecordedVideo_after_stop_rejects :
    (∀ st : ModuleState,
        getRecordedDataAsVideo (stopExistingRecordings st)
          = Except.error "No data recorded") ∧
    (runOps [Op.startCam "c", Op.startRec none, Op.collect [1, 2, 3],
        Op.stopRec, Op.task, Op.task] initState).lastStopResult = some [1, 2, 3] ∧
    (runOps [Op.startCam "c", Op.startRec none, Op.collect [1, 2, 3],
        Op.stopRec, Op.task, Op.task] initState).recordedData = none :=
  ⟨fun _ => rfl, rfl, rfl⟩

/-- C2 (counterexample): two `startCamera` calls with the same constraints
value, the camera active after the first: the second call is not a no-op —
it issues a second device acquisition (the count rises to 2) and returns a
fresh stream, not the existing one. -/
theorem startCamera_same_constraints_cex :
    ¬((runOps [Op.startCam "c", Op.startCam "c"] initState).acquisitions
        = (runOps [Op.startCam "c"] initState).acquisitions ∧
      (runOps [Op.startCam "c", Op.startCam "c"] initState).stream
        = (runOps [Op.startCam "c"] initState).stream) ∧
    (runOps [Op.startCam "c"] initState).acquisitions = 1 ∧
    (runOps [Op.startCam "c", Op.startCam "c"] initState).acquisitions = 2 ∧
    (runOps [Op.startCam "c"] initState).stream = some 0 ∧
    (runOps [Op.startCam "c", Op.startCam "c"] initState).stream = some 1 := by
  decide

/-- C2 (amended): `startCamera` itself never compares constraints: on a
supported platform every call tears everything down and issues a fresh
acquisition (the count always rises by one).  The equal-constraints no-op
lives in the `Camera` component's effect, which returns without touching
anything when the serialized constraints equal the last applied
serialization. -/
theorem startCamera_always_reacquires :
    (∀ (c : String) (st : ModuleState),
        startCameraModel true c st = Except.ok (startCameraOk st) ∧
        (startCameraOk st).acquisitions = st.acquisitions + 1) ∧
    (∀ (json : String) (cs : CamCompState), cs.appliedJson = some json →
        constraintsEffect json cs = cs) := by
  constructor
  · exact fun c st => ⟨rfl, rfl⟩
  · intro json cs h
    simp [constraintsEffect, h]

/-- C2 (witness for the amended claim): with serialization "a" already
applied, the effect is a no-op. -/
theorem startCamera_always_reacquires_witness :
    constraintsEffect "a" ⟨initState, some 0, some "a"⟩ = ⟨initState, some 0, some "a"⟩ :=
  startCamera_always_reacquires.2 "a" ⟨initState, some 0, some "a"⟩ rfl

/-- C3: with no active stream, a `capture` call with no `videoRef` rejects
with the `NoSource` message and allocates nothing (the `TypeError` from
`videoRef!.current` aborts the executor after the rejection), and
`startRecording` likewise fails before allocating; but a `capture` call
with a `videoRef` whose `current` is `null` rejects with the `NoSource`
message and STILL creates a hidden video element, appends it to the
document, and never removes it — the guard on line 89 rejects without
returning. -/
theorem capture_no_source_leaks_sink :
    (captureModel false RefArg.noRef).result
        = some (Except.error "No source provided for capture") ∧
    (captureModel false RefArg.noRef).virtualSinkCreated = false ∧
    (captureModel false RefArg.noRef).canvasCreated = false ∧
    startRecordingModel none initState
        = Except.error "No source provided for recording" ∧
    (captureModel false RefArg.refNull).result
        = some (Except.error "No source provided for capture") ∧
    (captureModel false RefArg.refNull).virtualSinkCreated = true ∧
    (captureModel false RefArg.refNull).virtualSinkRemoved = false :=
  ⟨rfl, rfl, rfl, rfl, rfl, rfl, rfl⟩

/-- C4: canvas size resolution, for positive native dimensions: both
requested dimensions are used verbatim; a single requested non-zero
dimension derives the other so that the resolved aspect ratio equals the
native one; with neither requested the native size is used; and the
still-capture and recording-session sizing rules agree on all inputs. -/
theorem canvas_size_resolution (nW nH w h : ℚ) (hW : 0 < nW) (hH : 0 < nH)
    (hw : w ≠ 0) (hh : h ≠ 0) :
    captureCanvasSize nW nH (some w) (some h) = (w, h) ∧
    (captureCanvasSize nW nH (some w) none).2
        / (captureCanvasSize nW nH (some w) none).1 = nH / nW ∧
    (captureCanvasSize nW nH none (some h)).2
        / (captureCanvasSize nW nH none (some h)).1 = nH / nW ∧
    captureCanvasSize nW nH none none = (nW, nH) ∧
    ∀ (ow oh : Option ℚ),
      captureCanvasSize nW nH ow oh = recordingCanvasSize nW nH ow oh := by
  have hW' : nW ≠ 0 := hW.ne'
  have hH' : nH ≠ 0 := hH.ne'
  refine ⟨rfl, ?_, ?_, rfl, ?_⟩
  · show nH * (w / nW) / w = nH / nW
    field_simp
    ring
  · show h / (nW * (h / nH)) = nH / nW
    rw [div_eq_div_iff (mul_ne_zero hW' (div_ne_zero hh hH')) hW']
    field_simp
    ring
  · intro ow oh
    cases ow <;> cases oh <;> rfl

/-- C4 (witness): native 4x3, requesting only width 2 resolves to height
3/2 and ratio 3/4; requesting only height 6 resolves to width 8 and the
same ratio. -/
theorem canvas_size_resolution_witness :
    (captureCanvasSize 4 3 (some 2) none).2
        / (captureCanvasSize 4 3 (some 2) none).1 = 3 / 4 ∧
    (captureCanvasSize 4 3 none (some 6)).2
        / (captureCanvasSize 4 3 none (some 6)).1 = 3 / 4 :=
  ⟨(canvas_size_resolution 4 3 2 6 (by norm_num) (by norm_num) (by norm_num)
      (by norm_num)).2.1,
   (canvas_size_resolution 4 3 2 6 (by norm_num) (by norm_num) (by norm_num)
      (by norm_num)).2.2.1⟩

/-- C5: starting a second recording while one is active does NOT keep the
first session's data out of the second clip.  `stopExistingRecordings`
calls `recorder.stop()`, whose queued final `dataavailable` (carrying all
of session 1's gathered bytes, here `[1,2,3]`) fires after the second
`startRecording` has reset `recordedData`; the shared handler appends it,
so the clip resolved after the second session's stop is `[1,2,3,9]`, not
just session 2's `[9]`. -/
theorem second_session_clip_polluted :
    (runOps [Op.startCam "c", Op.startRec none, Op.collect [1, 2, 3],
        Op.startRec none, Op.task, Op.task, Op.collect [9],
        Op.stopRec, Op.task, Op.task] initState).lastStopResult
      = some [1, 2, 3, 9] ∧
    ([1, 2, 3, 9] : List Nat) ≠ [9] :=
  ⟨rfl, by decide⟩

/-- C6: `stopRecording` with no recorder (nothing was ever started)
rejects immediately with "Recording not started". -/
theorem stopRecording_not_started (st : ModuleState) (h : st.recorder = none) :
    stopRecording st = Except.error "Recording not started" := by
  simp [stopRecording, h]

/-- C6 (witness): on the freshly loaded module. -/
theorem stopRecording_not_started_witness :
    stopRecording initState = Except.error "Recording not started" :=
  stopRecording_not_started initState rfl

/-- C7: for a recording session started cleanly, chunks are appended to the
accumulated sequence in arrival order with no reordering or deduplication,
and the clip `stopRecording` resolves is their concatenation (the final
flush adds only an empty chunk), whose byte length is the sum of the chunk
byte lengths. -/
theorem chunks_ordered_clip_concat (cs : List (List Nat)) :
    ((cs.foldl (fun t c => handleData c t) freshSession).recordedData.getD []) = cs ∧
    (runTask (runTask (applyOp Op.stopRec
        (cs.foldl (fun t c => handleData c t) freshSession)))).lastStopResult
      = some cs.flatten ∧
    cs.flatten.length = (cs.map List.length).sum := by
  have hfold : cs.foldl (fun t c => handleData c t) freshSession
      = { freshSession with
          recordedData := if cs.isEmpty then none else some cs } := by
    cases cs with
    | nil => rfl
    | cons d rest =>
      have h1 : handleData d freshSession
          = { freshSession with recordedData := some [d] } := rfl
      calc (d :: rest).foldl (fun t c => handleData c t) freshSession
          = rest.foldl (fun t c => handleData c t) (handleData d freshSession) := rfl
        _ = { handleData d freshSession with
              recordedData := some ([d] ++ rest) } :=
            foldl_handleData_eq rest _ [d] (by rw [h1])
        _ = _ := by rw [h1]; simp
  rw [hfold]
  cases cs with
  | nil => exact ⟨rfl, rfl, rfl⟩
  | cons d rest =>
    refine ⟨rfl, ?_, by simp⟩
    have := stop_after_chunks (d :: rest)
    simpa using this

/-- C8: the mirrored draw of a single still capture on a fresh context is a
true horizontal flip ([7,9] becomes [9,7]); but the recording render loop
applies `context.scale(-1, 1)` to the SAME context on every frame, so after
two consecutive mirrored renders the transform is back to identity, the
second frame ([5,6]) is drawn entirely outside the canvas, and the canvas
still shows the FIRST frame mirrored ([9,7]) — neither the new frame's
flip nor the original unmirrored layout. -/
theorem mirror_render_loop_accumulates :
    captureDraw true [7, 9] = trueHorizontalFlip [7, 9] ∧
    trueHorizontalFlip [7, 9] = [9, 7] ∧
    captureDraw false [7, 9] = [7, 9] ∧
    (renderLoopStep true (renderLoopStep true ((1 : Int), [0, 0]) [7, 9]) [5, 6]).2
      = [9, 7] ∧
    ([9, 7] : List Nat) ≠ trueHorizontalFlip [5, 6] ∧
    ([9, 7] : List Nat) ≠ [5, 6] ∧
    (renderLoopStep true (renderLoopStep true ((1 : Int), [0, 0]) [7, 9]) [5, 6]).1
      = 1 := by
  decide

/-- C9: on a supported platform, `startCamera` tears down any recording
session before acquiring the new stream — the state handed to the
acquisition step has the render-loop handle cancelled, the recorder
cleared (a live one was stopped), and the accumulated chunk sequence
discarded — and these still hold after acquisition. -/
theorem startCamera_tears_down_recording (st : ModuleState) (c : String) :
    startCameraModel true c st
      = Except.ok (acquireStream (stopExistingRecordingsAndCameraStreams st)) ∧
    (stopExistingRecordingsAndCameraStreams st).recordingRequestId = none ∧
    (stopExistingRecordingsAndCameraStreams st).recorder = none ∧
    (stopExistingRecordingsAndCameraStreams st).recordedData = none ∧
    (startCameraOk st).recordingRequestId = none ∧
    (startCameraOk st).recorder = none ∧
    (startCameraOk st).recordedData = none :=
  ⟨rfl, rfl, rfl, rfl, rfl, rfl, rfl⟩

/-- C10: no operation of the module ever removes a caller-supplied video
element from the document — `recordingVideoElement` only ever holds
internally created elements, and teardown removes only those — and a
`capture` call given a caller-supplied element never removes it either. -/
theorem caller_sink_never_removed :
    (∀ (op : Op) (st : ModuleState), callerUntouched st = true →
        callerUntouched (applyOp op st) = true) ∧
    (∀ hs : Bool, (captureModel hs RefArg.refEl).callerSinkRemoved = false) := by
  constructor
  · intro op st h
    cases op with
    | startCam c =>
      exact (callerUntouched_congr _ (stopExistingRecordings st) rfl rfl).trans
        (callerUntouched_stopExistingRecordings st h)
    | stopCam =>
      exact (callerUntouched_congr _ (stopExistingRecordings st) rfl rfl).trans
        (callerUntouched_stopExistingRecordings st h)
    | startRec r =>
      simp only [applyOp, startRecordingModel]
      by_cases hc : st.stream = none ∧ r = none
      · rw [if_pos hc]
        exact h
      · rw [if_neg hc]
        cases r with
        | some e =>
          exact (callerUntouched_congr _ (stopExistingRecordings st) rfl rfl).trans
            (callerUntouched_stopExistingRecordings st h)
        | none =>
          have h1 := callerUntouched_stopExistingRecordings st h
          unfold callerUntouched at h1 ⊢
          simp only [Bool.and_eq_true] at h1 ⊢
          exact ⟨h1.1, rfl⟩
    | stopRec =>
      simp only [applyOp, stopRecording]
      cases hr : st.recorder with
      | none => exact h
      | some r =>
        obtain ⟨rid, rcoll, rinact, ronstop⟩ := r
        cases rinact with
        | false => exact (callerUntouched_congr _ st rfl rfl).trans h
        | true => exact (callerUntouched_congr _ st rfl rfl).trans h
    | collect bs =>
      simp only [applyOp, collectData]
      cases hr : st.recorder with
      | none => exact h
      | some r =>
        obtain ⟨rid, rcoll, rinact, ronstop⟩ := r
        cases rinact with
        | false => exact (callerUntouched_congr _ st rfl rfl).trans h
        | true => exact h
    | task =>
      simp only [applyOp, runTask]
      cases ht : st.tasks with
      | nil => exact h
      | cons t rest =>
        cases t with
        | flush d =>
          exact (callerUntouched_congr _ st rfl rfl).trans h
        | stopEvt b =>
          cases b with
          | false => exact h
          | true =>
            cases hrd : st.recordedData with
            | none => exact h
            | some l =>
              exact (callerUntouched_congr _ (stopExistingRecordings st) rfl rfl).trans
                (callerUntouched_stopExistingRecordings st h)
  · intro hs
    cases hs <;> rfl

/-- C10 (witness): starting from the freshly loaded module, a
`startRecording` with a caller-supplied element keeps the invariant. -/
theorem caller_sink_never_removed_witness :
    callerUntouched initState = true ∧
    callerUntouched (applyOp (Op.startRec (some 7)) initState) = true :=
  ⟨rfl, caller_sink_never_removed.1 (Op.startRec (some 7)) initState rfl⟩

end ReactUseCamera
